import Mathlib

/-!
Verification development for a small Express/Mongoose car-tracker web
application.  The request handlers of `server.js` and the Mongoose schema of
`models/Car.js` are shallowly embedded as pure Lean functions over an explicit
store/session state.  JavaScript truthiness, `Number(...)` coercion of missing
fields to `NaN`, Mongoose create-time schema validation (update validators are
off by default for `updateOne`), and the `$set` semantics of dropping
`undefined` keys are modelled explicitly.  Record ids are modelled as natural
numbers; `bcrypt` is modelled as an injective tagging function together with
the matching comparison.
-/

namespace CarTracker

/-- A JavaScript request-body value for the `isElectric` field: it may be
absent (`undefined`), a string, or a boolean. -/
inductive JsVal where
  | undef
  | str (s : String)
  | boolean (b : Bool)
deriving Repr, DecidableEq

/-- JS truthiness of an optional string field: `undefined` and `""` are falsy. -/
def truthyS : Option String → Bool
  | none => false
  | some s => s ≠ ""

/-- JS truthiness of an optional numeric field: `undefined` and `0` are falsy. -/
def truthyI : Option Int → Bool
  | none => false
  | some n => n ≠ 0

/-- The JS idiom `v || d` on a string field: `undefined` and `""` fall back to
the default. -/
def jsOrS (v : Option String) (d : String) : String :=
  match v with
  | none => d
  | some s => if s = "" then d else s

/-- `String.prototype.trim`: drop leading and trailing whitespace. -/
def jsTrim (s : String) : String :=
  ⟨(((s.data.dropWhile Char.isWhitespace).reverse.dropWhile Char.isWhitespace).reverse)⟩

/-- `b.isElectric === "on" || b.isElectric === true` (the `/add` and `/modify`
handlers). -/
def isElectricAdd : JsVal → Bool
  | .str "on" => true
  | .boolean true => true
  | _ => false

/-- `b.isElectric === "on" || b.isElectric === true || b.isElectric === "true"`
(the `/cars` form handlers). -/
def isElectricForm : JsVal → Bool
  | .str "on" => true
  | .boolean true => true
  | .str "true" => true
  | _ => false

/-- A user document: `_id`, unique `username`, bcrypt `password` hash. -/
structure User where
  id : Nat
  username : String
  password : String
deriving Repr, DecidableEq

/-- The password-free projection of a user produced by `.select("-password")`. -/
structure PublicUser where
  id : Nat
  username : String
deriving Repr, DecidableEq

def toPublic (u : User) : PublicUser := ⟨u.id, u.username⟩

/-- A car document, following `models/Car.js` (`timestamps: true` adds
`createdAt`; we model it as an insertion counter). -/
structure Car where
  id : Nat
  owner : Nat
  model : String
  year : Int
  mpg : Int
  notes : String
  fuel : String
  isElectric : Bool
  transmission : String
  createdAt : Nat
deriving Repr, DecidableEq

/-- The database: user and car collections in insertion (natural) order,
with counters supplying fresh ids and creation timestamps. -/
structure Store where
  users : List User
  cars : List Car
  nextId : Nat
  nextTime : Nat
deriving Repr, DecidableEq

/-- Per-request session state: the authenticated user reference and the
one-shot flash message. -/
structure Session where
  userId : Option Nat
  flash : Option String
deriving Repr, DecidableEq

/-- An HTTP response, abstracting the render/serialization step.
`unhandledError` models an exception escaping a handler that has no
try/catch (e.g. a Mongoose `CastError` on a `NaN` update value). -/
inductive Response where
  | redirect (path : String)
  | renderLogin
  | renderDashboard (user : User) (cars : List Car)
  | jsonError (status : Nat) (error : String)
  | jsonCars (cars : List Car)
  | jsonMe (user : Option PublicUser) (cars : List Car)
  | notFound
  | unhandledError
deriving Repr, DecidableEq

/-- Result of running one handler: new store, new session, response. -/
structure HResult where
  store : Store
  sess : Session
  resp : Response
deriving Repr, DecidableEq

/-- `bcrypt.hash` modelled as an injective tagging function (the model only
needs that comparison succeeds exactly against the hash of the same
password). -/
def bcryptHash (password : String) : String := "$2b$10$" ++ password

/-- `bcrypt.compare password hash` in the model. -/
def bcryptCompare (password hash : String) : Bool := hash == bcryptHash password

/-- `User.findOne({ username })`: first match in natural order. -/
def findUser (users : List User) (username : String) : Option User :=
  users.find? (fun u => u.username == username)

/-- `User.findById(uid)`. -/
def findUserById (users : List User) (uid : Nat) : Option User :=
  users.find? (fun u => u.id == uid)

/-- `Car.find({ owner: uid })`: the owner's cars in natural order (no sort). -/
def carsOf (st : Store) (uid : Nat) : List Car :=
  st.cars.filter (fun c => c.owner == uid)

/-- `.sort({ createdAt: -1 })`: most recent creation first. -/
def carAfter (a b : Car) : Prop := b.createdAt ≤ a.createdAt

instance : DecidableRel carAfter := fun a b => Nat.decLe _ _

instance : IsTotal Car carAfter :=
  ⟨fun a b => le_total b.createdAt a.createdAt⟩

instance : IsTrans Car carAfter :=
  ⟨fun _ _ _ hab hbc => le_trans hbc hab⟩

def sortDesc (l : List Car) : List Car := List.insertionSort carAfter l

/-- The allowed fuel values (`models/Car.js` enum and the `/add` check). -/
def allowedFuels : List String := ["gasoline", "diesel", "electric", "hybrid"]

/-- The allowed transmission values. -/
def allowedTransmissions : List String := ["auto", "manual"]

/-- Mongoose create-time schema validation for `carSchema`: `model` required
(non-empty string), `year ≥ 1885`, `mpg ≥ 0`, enum membership for `fuel` and
`transmission`. -/
def carSchemaValid (c : Car) : Bool :=
  c.model ≠ "" && c.year ≥ 1885 && c.mpg ≥ 0 &&
    allowedFuels.contains c.fuel && allowedTransmissions.contains c.transmission

/-- `Car.create(payload)`: validates against the schema, then inserts;
`none` models a thrown `ValidationError`. -/
def Car.create (st : Store) (c : Car) : Option Store :=
  if carSchemaValid c then
    some { st with cars := st.cars ++ [c], nextId := st.nextId + 1,
                   nextTime := st.nextTime + 1 }
  else none

/-- `requireAuth` middleware: pass iff the session carries a user reference. -/
def requireAuth (sess : Session) : Bool := sess.userId.isSome

/-- `ensureLoggedInOrDemo` middleware: auto-provision the `demo` account when
the session is unauthenticated; returns the (possibly grown) store, the
session, and the effective user id. -/
def ensureLoggedInOrDemo (st : Store) (sess : Session) : Store × Session × Nat :=
  match sess.userId with
  | some uid => (st, sess, uid)
  | none =>
    match findUser st.users "demo" with
    | some demo => (st, { sess with userId := some demo.id }, demo.id)
    | none =>
      let demo : User := ⟨st.nextId, "demo", bcryptHash "demo"⟩
      ({ st with users := st.users ++ [demo], nextId := st.nextId + 1 },
       { sess with userId := some demo.id }, demo.id)

/-- `POST /login` handler (merged login/register). -/
def postLogin (st : Store) (sess : Session) (username password : String) :
    HResult :=
  if username = "" || password = "" then
    ⟨st, { sess with flash := some "Username and password required." },
     .redirect "/"⟩
  else
    match findUser st.users username with
    | none =>
      let user : User := ⟨st.nextId, username, bcryptHash password⟩
      ⟨{ st with users := st.users ++ [user], nextId := st.nextId + 1 },
       { userId := some user.id,
         flash := some "New account created and logged in." },
       .redirect "/dashboard"⟩
    | some existing =>
      if bcryptCompare password existing.password then
        ⟨st, { sess with userId := some existing.id }, .redirect "/dashboard"⟩
      else
        ⟨st, { sess with flash := some "Incorrect password." }, .redirect "/"⟩

/-- `POST /logout`: destroy the session unconditionally, redirect to `/`. -/
def postLogout (_sess : Session) : Session × Response :=
  (⟨none, none⟩, .redirect "/")

/-- `GET /dashboard` (strict auth): render the user and the owner's cars
sorted most recent first.  A dangling session user reference makes
`user._id` throw (no catch). -/
def getDashboard (st : Store) (sess : Session) : Response :=
  match sess.userId with
  | none => .redirect "/"
  | some uid =>
    match findUserById st.users uid with
    | none => .unhandledError
    | some u => .renderDashboard u (sortDesc (carsOf st uid))

/-- `GET /api/me` (strict auth): the password-free user projection and the
owner's cars in natural order (no sort). -/
def getApiMe (st : Store) (sess : Session) : Response :=
  match sess.userId with
  | none => .redirect "/"
  | some uid => .jsonMe ((findUserById st.users uid).map toPublic) (carsOf st uid)

/-- `GET /data` (permissive auth): the owner's cars in natural order. -/
def getData (st : Store) (sess : Session) : HResult :=
  let e := ensureLoggedInOrDemo st sess
  ⟨e.1, e.2.1, .jsonCars (carsOf e.1 e.2.2)⟩

/-- A car-field request body shared by the form and JSON surfaces; `none`
models an absent (`undefined`) field, and numeric fields are restricted to
JSON numbers. -/
structure CarBody where
  model : Option String
  year : Option Int
  mpg : Option Int
  notes : Option String
  fuel : Option String
  isElectric : JsVal
  transmission : Option String
deriving Repr, DecidableEq

/-- `POST /add` body: the same fields (the `id` field is unused here). -/
structure ModifyBody where
  id : Option Nat
  fields : CarBody
deriving Repr, DecidableEq

/-- The document built by the `/add` handler once its checks have passed
(string fields trimmed, `notes` defaulted to the empty string). -/
def addPayload (newId uid t : Nat) (b : CarBody) : Car :=
  { id := newId, owner := uid,
    model := jsTrim (b.model.getD ""),
    year := b.year.getD 0,
    mpg := b.mpg.getD 0,
    notes := jsTrim (b.notes.getD ""),
    fuel := jsTrim (b.fuel.getD ""),
    isElectric := isElectricAdd b.isElectric,
    transmission := jsTrim (b.transmission.getD ""),
    createdAt := t }

/-- The `/add` handler's own validation, with its short-circuit structure:
JS truthiness of the three required fields, the year bound, and the two
enum membership checks (`includes` on an absent field is false). -/
def addHandlerAccepts (b : CarBody) : Bool :=
  (truthyS b.model && truthyI b.year && truthyI b.mpg)
    && !(b.year.getD 0 < 1885)
    && allowedFuels.contains (b.fuel.getD "")
    && allowedTransmissions.contains (b.transmission.getD "")

/-- `POST /add` (permissive auth, JSON surface): handler validation, then
`Car.create`; success redirects to the dashboard, a create failure is caught
and answered with a 500 JSON error. -/
def postAdd (st : Store) (sess : Session) (b : CarBody) : HResult :=
  let e := ensureLoggedInOrDemo st sess
  let st1 := e.1
  let sess1 := e.2.1
  let uid := e.2.2
  if !(truthyS b.model && truthyI b.year && truthyI b.mpg) then
    ⟨st1, sess1, .jsonError 400 "Model, year, and MPG are required fields."⟩
  else if b.year.getD 0 < 1885 then
    ⟨st1, sess1, .jsonError 400 "Year must be 1885 or later."⟩
  else if !(allowedFuels.contains (b.fuel.getD "")) then
    ⟨st1, sess1,
     .jsonError 400 "Fuel must be one of: gasoline, diesel, electric, hybrid."⟩
  else if !(allowedTransmissions.contains (b.transmission.getD "")) then
    ⟨st1, sess1, .jsonError 400 "Transmission must be one of: auto, manual."⟩
  else
    match Car.create st1 (addPayload st1.nextId uid st1.nextTime b) with
    | some st2 => ⟨st2, sess1, .redirect "/dashboard"⟩
    | none => ⟨st1, sess1, .jsonError 500 "Failed to add car."⟩

/-- The `$set` document built by `POST /modify`: `undefined` string fields
are dropped by Mongoose, `isElectric` is always a boolean; update validators
are off, so no enum/min check runs. -/
def applyModifySet (b : CarBody) (c : Car) : Car :=
  { c with
    model := b.model.getD c.model,
    year := b.year.getD c.year,
    mpg := b.mpg.getD c.mpg,
    notes := b.notes.getD c.notes,
    fuel := b.fuel.getD c.fuel,
    isElectric := isElectricAdd b.isElectric,
    transmission := b.transmission.getD c.transmission }

/-- `POST /modify` (permissive auth, JSON surface).  A missing `year` or
`mpg` coerces to `NaN`, which fails the Mongoose number cast inside
`updateOne` with no catch in scope. -/
def postModify (st : Store) (sess : Session) (b : ModifyBody) : HResult :=
  let e := ensureLoggedInOrDemo st sess
  let st1 := e.1
  let sess1 := e.2.1
  let uid := e.2.2
  match b.id with
  | none => ⟨st1, sess1, .jsonError 400 "Missing id"⟩
  | some cid =>
    if b.fields.year.isNone || b.fields.mpg.isNone then
      ⟨st1, sess1, .unhandledError⟩
    else
      let st2 := { st1 with cars := st1.cars.map (fun c =>
        if c.id == cid && c.owner == uid then applyModifySet b.fields c else c) }
      ⟨st2, sess1, .jsonCars (carsOf st2 uid)⟩

/-- `POST /delete` (permissive auth, JSON surface): ownership-scoped
`deleteOne`, then the caller's list. -/
def postDelete (st : Store) (sess : Session) (id : Option Nat) : HResult :=
  let e := ensureLoggedInOrDemo st sess
  let st1 := e.1
  let sess1 := e.2.1
  let uid := e.2.2
  match id with
  | none => ⟨st1, sess1, .jsonError 400 "Missing id"⟩
  | some cid =>
    let st2 := { st1 with
      cars := st1.cars.eraseP (fun c => c.id == cid && c.owner == uid) }
    ⟨st2, sess1, .jsonCars (carsOf st2 uid)⟩

/-- The `$set` document built by `POST /cars/:id/update`: `notes`, `fuel`
and `transmission` get form defaults via `||`, so they are always present. -/
def applyFormSet (b : CarBody) (c : Car) : Car :=
  { c with
    model := b.model.getD c.model,
    year := b.year.getD c.year,
    mpg := b.mpg.getD c.mpg,
    notes := jsOrS b.notes "",
    fuel := jsOrS b.fuel "gasoline",
    isElectric := isElectricForm b.isElectric,
    transmission := jsOrS b.transmission "auto" }

/-- `POST /cars` (strict auth, HTML surface): build payload with form
defaults and `Car.create`; a schema failure throws with no catch. -/
def postCars (st : Store) (sess : Session) (b : CarBody) : HResult :=
  match sess.userId with
  | none => ⟨st, sess, .redirect "/"⟩
  | some uid =>
    if b.year.isNone || b.mpg.isNone then ⟨st, sess, .unhandledError⟩
    else
      let payload : Car :=
        { id := st.nextId, owner := uid,
          model := b.model.getD "",
          year := b.year.getD 0,
          mpg := b.mpg.getD 0,
          notes := jsOrS b.notes "",
          fuel := jsOrS b.fuel "gasoline",
          isElectric := isElectricForm b.isElectric,
          transmission := jsOrS b.transmission "auto",
          createdAt := st.nextTime }
      match Car.create st payload with
      | some st2 => ⟨st2, sess, .redirect "/dashboard"⟩
      | none => ⟨st, sess, .unhandledError⟩

/-- `POST /cars/:id/update` (strict auth, HTML surface). -/
def postCarsUpdate (st : Store) (sess : Session) (cid : Nat) (b : CarBody) :
    HResult :=
  match sess.userId with
  | none => ⟨st, sess, .redirect "/"⟩
  | some uid =>
    if b.year.isNone || b.mpg.isNone then ⟨st, sess, .unhandledError⟩
    else
      let st2 := { st with cars := st.cars.map (fun c =>
        if c.id == cid && c.owner == uid then applyFormSet b c else c) }
      ⟨st2, sess, .redirect "/dashboard"⟩

/-- `POST /cars/:id/delete` (strict auth, HTML surface). -/
def postCarsDelete (st : Store) (sess : Session) (cid : Nat) : HResult :=
  match sess.userId with
  | none => ⟨st, sess, .redirect "/"⟩
  | some uid =>
    ⟨{ st with
        cars := st.cars.eraseP (fun c => c.id == cid && c.owner == uid) },
     sess, .redirect "/dashboard"⟩

/-! Concrete fixtures used to instantiate the theorems. -/

def emptyStore : Store := ⟨[], [], 0, 0⟩

def anonSession : Session := ⟨none, none⟩

def alice : User := ⟨0, "alice", bcryptHash "alicepw"⟩

def bob : User := ⟨1, "bob", bcryptHash "bobpw"⟩

def bobCar : Car := ⟨10, 1, "Beetle", 1999, 24, "", "gasoline", false, "manual", 0⟩

def aliceCar : Car := ⟨11, 0, "Civic", 2020, 35, "", "gasoline", false, "auto", 1⟩

def aliceCar2 : Car := ⟨12, 0, "Leaf", 2021, 100, "", "electric", true, "auto", 2⟩

/-- Two users, one car each. -/
def stTwoUsers : Store := ⟨[alice, bob], [bobCar, aliceCar], 13, 3⟩

/-- Two users, two cars both owned by alice, inserted oldest first. -/
def stTwoCars : Store := ⟨[alice, bob], [aliceCar, aliceCar2], 13, 3⟩

def sessAlice : Session := ⟨some 0, none⟩

/-- A fully valid `/add` body. -/
def bodyOK : CarBody :=
  ⟨some "Civic", some 2020, some 35, none, some "gasoline", .undef, some "auto"⟩

/-- A fully populated update body. -/
def bodyFull : CarBody :=
  ⟨some "Model3", some 2022, some 120, some " nice ", some "electric",
   .boolean true, some "auto"⟩

/-! Helper lemmas. -/

theorem ensure_some (st : Store) (sess : Session) (uid : Nat)
    (h : sess.userId = some uid) :
    ensureLoggedInOrDemo st sess = (st, sess, uid) := by
  simp [ensureLoggedInOrDemo, h]

theorem ensure_userId (st : Store) (sess : Session) :
    (ensureLoggedInOrDemo st sess).2.1.userId
      = some (ensureLoggedInOrDemo st sess).2.2 := by
  cases h : sess.userId with
  | some uid => simp [ensureLoggedInOrDemo, h]
  | none =>
    cases hf : findUser st.users "demo" <;> simp [ensureLoggedInOrDemo, h, hf]

theorem ensure_cars (st : Store) (sess : Session) :
    (ensureLoggedInOrDemo st sess).1.cars = st.cars := by
  cases h : sess.userId with
  | some uid => simp [ensureLoggedInOrDemo, h]
  | none =>
    cases hf : findUser st.users "demo" <;> simp [ensureLoggedInOrDemo, h, hf]

/-- An ownership-scoped update matching no record is the identity on the
collection. -/
theorem update_map_noop (l : List Car) (cid uid : Nat) (g : Car → Car)
    (h : ∀ c ∈ l, c.id = cid → c.owner ≠ uid) :
    l.map (fun c => if c.id == cid && c.owner == uid then g c else c) = l := by
  have hc : ∀ c ∈ l, (if c.id == cid && c.owner == uid then g c else c) = id c := by
    intro c hcl
    have hne : ¬(c.id == cid && c.owner == uid) = true := by
      simp only [Bool.and_eq_true, beq_iff_eq]
      rintro ⟨h1, h2⟩
      exact h c hcl h1 h2
    simp [hne]
  rw [List.map_congr_left hc, List.map_id]

/-- An ownership-scoped delete matching no record is the identity on the
collection. -/
theorem erase_noop (l : List Car) (cid uid : Nat)
    (h : ∀ c ∈ l, c.id = cid → c.owner ≠ uid) :
    l.eraseP (fun c => c.id == cid && c.owner == uid) = l := by
  apply List.eraseP_of_forall_not
  intro c hcl
  simp only [Bool.and_eq_true, beq_iff_eq, not_and]
  exact h c hcl

/-! Theorems for the claims. -/

/-- C9: `POST /logout` destroys the session unconditionally (user reference
and flash both cleared) and redirects to the entry page; a missing session is
a no-op success (the same equations hold for the already-cleared session);
and every strict-auth route invoked with the cleared session redirects to the
entry page without touching the store. -/
theorem logout_clears_session (sess : Session) (st : Store) (cid : Nat)
    (b : CarBody) :
    (postLogout sess).1 = ⟨none, none⟩
    ∧ (postLogout sess).2 = .redirect "/"
    ∧ requireAuth (postLogout sess).1 = false
    ∧ getDashboard st (postLogout sess).1 = .redirect "/"
    ∧ getApiMe st (postLogout sess).1 = .redirect "/"
    ∧ postCars st (postLogout sess).1 b = ⟨st, (postLogout sess).1, .redirect "/"⟩
    ∧ postCarsUpdate st (postLogout sess).1 cid b
        = ⟨st, (postLogout sess).1, .redirect "/"⟩
    ∧ postCarsDelete st (postLogout sess).1 cid
        = ⟨st, (postLogout sess).1, .redirect "/"⟩ := by
  refine ⟨rfl, rfl, rfl, rfl, rfl, rfl, rfl, rfl⟩

/-- C10: no update operation changes any car's owner: after `POST /modify`
or `POST /cars/:id/update`, the owner column of the collection is unchanged,
for every store, session and request body. -/
theorem update_preserves_owner (st : Store) (sess : Session) (b : ModifyBody)
    (cid : Nat) (fb : CarBody) :
    (postModify st sess b).store.cars.map Car.owner = st.cars.map Car.owner
    ∧ (postCarsUpdate st sess cid fb).store.cars.map Car.owner
        = st.cars.map Car.owner := by
  constructor
  · unfold postModify
    cases hid : b.id with
    | none => simp [ensure_cars]
    | some cid' =>
      by_cases hnan : (b.fields.year.isNone || b.fields.mpg.isNone) = true
      · simp [hnan, ensure_cars]
      · simp only [hnan, if_false, Bool.not_eq_true, ite_false, ensure_cars]
        simp only [Bool.false_eq_true, if_false]
        rw [List.map_map]
        apply List.map_congr_left
        intro c _
        simp only [Function.comp_apply]
        split <;> rfl
  · unfold postCarsUpdate
    cases hs : sess.userId with
    | none => simp
    | some uid =>
      by_cases hnan : (fb.year.isNone || fb.mpg.isNone) = true
      · simp [hnan]
      · simp only [hnan, if_false, Bool.not_eq_true, ite_false]
        simp only [Bool.false_eq_true, if_false]
        rw [List.map_map]
        apply List.map_congr_left
        intro c _
        simp only [Function.comp_apply]
        split <;> rfl

/-- C1: for a logged-in user `uid` and a record id `bid` that exists but is
owned by someone else, an update (`POST /modify`, `POST /cars/:id/update`) or
delete (`POST /delete`, `POST /cars/:id/delete`) naming `bid` leaves the store
unchanged and yields exactly the same result (store, session and response) as
the same request naming an id `nid` that matches no record at all. -/
theorem ownership_isolation_no_leak
    (st : Store) (sess : Session) (uid bid nid : Nat) (b : CarBody)
    (hsess : sess.userId = some uid)
    (hB : ∃ c ∈ st.cars, c.id = bid)
    (hOther : ∀ c ∈ st.cars, c.id = bid → c.owner ≠ uid)
    (hN : ∀ c ∈ st.cars, c.id ≠ nid) :
    (postModify st sess ⟨some bid, b⟩ = postModify st sess ⟨some nid, b⟩
      ∧ (postModify st sess ⟨some bid, b⟩).store = st)
    ∧ (postDelete st sess (some bid) = postDelete st sess (some nid)
      ∧ (postDelete st sess (some bid)).store = st)
    ∧ (postCarsUpdate st sess bid b = postCarsUpdate st sess nid b
      ∧ (postCarsUpdate st sess bid b).store = st)
    ∧ (postCarsDelete st sess bid = postCarsDelete st sess nid
      ∧ (postCarsDelete st sess bid).store = st) := by
  have hN' : ∀ c ∈ st.cars, c.id = nid → c.owner ≠ uid := by
    intro c hc h1
    exact absurd h1 (hN c hc)
  have hmapB := update_map_noop st.cars bid uid (applyModifySet b) hOther
  have hmapN := update_map_noop st.cars nid uid (applyModifySet b) hN'
  have hmapB' := update_map_noop st.cars bid uid (applyFormSet b) hOther
  have hmapN' := update_map_noop st.cars nid uid (applyFormSet b) hN'
  have heraB := erase_noop st.cars bid uid hOther
  have heraN := erase_noop st.cars nid uid hN'
  refine ⟨⟨?_, ?_⟩, ⟨?_, ?_⟩, ⟨?_, ?_⟩, ⟨?_, ?_⟩⟩ <;>
    simp only [postModify, postDelete, postCarsUpdate, postCarsDelete,
      ensure_some st sess uid hsess, hsess, hmapB, hmapN, hmapB', hmapN',
      heraB, heraN] <;>
    first
      | rfl
      | (split <;> rfl)

/-- C1 witness: alice (id 0) targets bob's car (id 10) and the nonexistent
id 99; hypotheses and conclusion at this concrete instance. -/
theorem ownership_isolation_no_leak_witness :
    (sessAlice.userId = some 0
      ∧ (∃ c ∈ stTwoUsers.cars, c.id = 10)
      ∧ (∀ c ∈ stTwoUsers.cars, c.id = 10 → c.owner ≠ 0)
      ∧ (∀ c ∈ stTwoUsers.cars, c.id ≠ 99))
    ∧ ((postModify stTwoUsers sessAlice ⟨some 10, bodyFull⟩
          = postModify stTwoUsers sessAlice ⟨some 99, bodyFull⟩
        ∧ (postModify stTwoUsers sessAlice ⟨some 10, bodyFull⟩).store = stTwoUsers)
      ∧ (postDelete stTwoUsers sessAlice (some 10)
          = postDelete stTwoUsers sessAlice (some 99)
        ∧ (postDelete stTwoUsers sessAlice (some 10)).store = stTwoUsers)
      ∧ (postCarsUpdate stTwoUsers sessAlice 10 bodyFull
          = postCarsUpdate stTwoUsers sessAlice 99 bodyFull
        ∧ (postCarsUpdate stTwoUsers sessAlice 10 bodyFull).store = stTwoUsers)
      ∧ (postCarsDelete stTwoUsers sessAlice 10
          = postCarsDelete stTwoUsers sessAlice 99
        ∧ (postCarsDelete stTwoUsers sessAlice 10).store = stTwoUsers)) :=
  ⟨⟨by decide, by decide, by decide, by decide⟩,
   ownership_isolation_no_leak stTwoUsers sessAlice 0 10 99 bodyFull
     (by decide) (by decide) (by decide) (by decide)⟩

/-- Appending a user whose username was unseen makes `findOne` return it. -/
theorem findUser_append_self (users : List User) (u : User)
    (h : findUser users u.username = none) :
    findUser (users ++ [u]) u.username = some u := by
  unfold findUser at *
  rw [List.find?_append, h]
  simp

/-- The modelled bcrypt hash is injective. -/
theorem bcryptHash_inj {p q : String} (h : bcryptHash p = bcryptHash q) :
    p = q := by
  have h2 := congrArg String.data h
  simp [bcryptHash, String.data_append] at h2
  exact String.ext h2

/-- C3 (amended: username and passwords non-empty): a first login with a
never-seen username creates exactly one account (the list of users grows by
exactly that account), establishes a session for it, and redirects to the
dashboard; a second login with the same username and password succeeds with
no store change (no duplicate account); a login with a wrong password sets
the flash, redirects to the entry page, and mutates neither the store nor
the session's user. -/
theorem login_register_semantics
    (st : Store) (sess sess2 sess3 : Session) (u p p2 : String)
    (hu : u ≠ "") (hp : p ≠ "") (hnew : findUser st.users u = none)
    (hp2 : p2 ≠ "") (hp2ne : p2 ≠ p) :
    (postLogin st sess u p).store.users
        = st.users ++ [⟨st.nextId, u, bcryptHash p⟩]
    ∧ (postLogin st sess u p).store.cars = st.cars
    ∧ (postLogin st sess u p).sess.userId = some st.nextId
    ∧ (postLogin st sess u p).resp = .redirect "/dashboard"
    ∧ (postLogin (postLogin st sess u p).store sess2 u p).store
        = (postLogin st sess u p).store
    ∧ (postLogin (postLogin st sess u p).store sess2 u p).sess.userId
        = some st.nextId
    ∧ (postLogin (postLogin st sess u p).store sess2 u p).resp
        = .redirect "/dashboard"
    ∧ (postLogin (postLogin st sess u p).store sess3 u p2).store
        = (postLogin st sess u p).store
    ∧ (postLogin (postLogin st sess u p).store sess3 u p2).sess.userId
        = sess3.userId
    ∧ (postLogin (postLogin st sess u p).store sess3 u p2).sess.flash
        = some "Incorrect password."
    ∧ (postLogin (postLogin st sess u p).store sess3 u p2).resp
        = .redirect "/" := by
  have h1 : postLogin st sess u p =
      ⟨{ st with
          users := st.users ++ [⟨st.nextId, u, bcryptHash p⟩],
          nextId := st.nextId + 1 },
       ⟨some st.nextId, some "New account created and logged in."⟩,
       .redirect "/dashboard"⟩ := by
    simp [postLogin, hu, hp, hnew]
  have h2 : findUser (st.users ++ [(⟨st.nextId, u, bcryptHash p⟩ : User)]) u
      = some ⟨st.nextId, u, bcryptHash p⟩ :=
    findUser_append_self st.users ⟨st.nextId, u, bcryptHash p⟩ hnew
  have h3 : bcryptCompare p (bcryptHash p) = true := by
    simp [bcryptCompare]
  have h4 : bcryptCompare p2 (bcryptHash p) = false := by
    simp only [bcryptCompare, beq_eq_false_iff_ne, ne_eq]
    intro hh
    exact hp2ne (bcryptHash_inj hh.symm)
  rw [h1]
  refine ⟨rfl, rfl, rfl, rfl, ?_, ?_, ?_, ?_, ?_, ?_, ?_⟩ <;>
    simp [postLogin, hu, hp, hp2, h2, h3, h4]

/-- C3 counterexample to the unrestricted claim: the empty username is
never-seen (no account exists at all), yet `POST /login` with it creates no
account and establishes no session; it flashes and redirects instead. -/
theorem login_register_counterexample :
    findUser emptyStore.users "" = none
    ∧ (postLogin emptyStore anonSession "" "secret").store.users = []
    ∧ (postLogin emptyStore anonSession "" "secret").sess.userId = none
    ∧ (postLogin emptyStore anonSession "" "secret").resp = .redirect "/" := by
  refine ⟨rfl, by decide, by decide, by decide⟩

/-- C3 witness: the amended theorem instantiated with username `alice`,
password `pw`, wrong password `bad` on the empty store. -/
theorem login_register_semantics_witness :
    (("alice" : String) ≠ "" ∧ ("pw" : String) ≠ ""
      ∧ findUser emptyStore.users "alice" = none
      ∧ ("bad" : String) ≠ "" ∧ ("bad" : String) ≠ "pw")
    ∧ ((postLogin emptyStore anonSession "alice" "pw").store.users
        = emptyStore.users ++ [⟨emptyStore.nextId, "alice", bcryptHash "pw"⟩]
    ∧ (postLogin emptyStore anonSession "alice" "pw").store.cars = emptyStore.cars
    ∧ (postLogin emptyStore anonSession "alice" "pw").sess.userId
        = some emptyStore.nextId
    ∧ (postLogin emptyStore anonSession "alice" "pw").resp = .redirect "/dashboard"
    ∧ (postLogin (postLogin emptyStore anonSession "alice" "pw").store
          anonSession "alice" "pw").store
        = (postLogin emptyStore anonSession "alice" "pw").store
    ∧ (postLogin (postLogin emptyStore anonSession "alice" "pw").store
          anonSession "alice" "pw").sess.userId = some emptyStore.nextId
    ∧ (postLogin (postLogin emptyStore anonSession "alice" "pw").store
          anonSession "alice" "pw").resp = .redirect "/dashboard"
    ∧ (postLogin (postLogin emptyStore anonSession "alice" "pw").store
          anonSession "alice" "bad").store
        = (postLogin emptyStore anonSession "alice" "pw").store
    ∧ (postLogin (postLogin emptyStore anonSession "alice" "pw").store
          anonSession "alice" "bad").sess.userId = anonSession.userId
    ∧ (postLogin (postLogin emptyStore anonSession "alice" "pw").store
          anonSession "alice" "bad").sess.flash = some "Incorrect password."
    ∧ (postLogin (postLogin emptyStore anonSession "alice" "pw").store
          anonSession "alice" "bad").resp = .redirect "/") :=
  ⟨⟨by decide, by decide, rfl, by decide, by decide⟩,
   login_register_semantics emptyStore anonSession anonSession anonSession
     "alice" "pw" "bad" (by decide) (by decide) rfl (by decide) (by decide)⟩

/-- The four fuel values carry no surrounding whitespace, so trimming them is
the identity. -/
theorem jsTrim_fuels : ∀ f ∈ allowedFuels, jsTrim f = f := by decide

/-- Likewise for the two transmission values. -/
theorem jsTrim_transmissions : ∀ t ∈ allowedTransmissions, jsTrim t = t := by
  decide

/-- When every field passes both the handler checks and the schema, `/add`
appends exactly the built payload, bumps the counters and redirects. -/
theorem postAdd_accepted (st : Store) (sess : Session) (b : CarBody)
    (m f tr : String) (y mp : Int)
    (hm : b.model = some m) (hm' : jsTrim m ≠ "")
    (hy : b.year = some y) (hy' : 1885 ≤ y)
    (hmp : b.mpg = some mp) (hmp' : 0 < mp)
    (hf : b.fuel = some f) (hf' : f ∈ allowedFuels)
    (htr : b.transmission = some tr) (htr' : tr ∈ allowedTransmissions) :
    postAdd st sess b =
      ⟨{ (ensureLoggedInOrDemo st sess).1 with
          cars := (ensureLoggedInOrDemo st sess).1.cars
            ++ [addPayload (ensureLoggedInOrDemo st sess).1.nextId
                  (ensureLoggedInOrDemo st sess).2.2
                  (ensureLoggedInOrDemo st sess).1.nextTime b],
          nextId := (ensureLoggedInOrDemo st sess).1.nextId + 1,
          nextTime := (ensureLoggedInOrDemo st sess).1.nextTime + 1 },
       (ensureLoggedInOrDemo st sess).2.1,
       .redirect "/dashboard"⟩ := by
  have hm0 : m ≠ "" := by
    intro h
    rw [h] at hm'
    exact hm' rfl
  have hy0 : y ≠ 0 := by omega
  have hmp0 : mp ≠ 0 := by omega
  have hylt : ¬ y < 1885 := by omega
  have hcf : allowedFuels.contains f = true := List.elem_iff.mpr hf'
  have hct : allowedTransmissions.contains tr = true := List.elem_iff.mpr htr'
  have htrimf : jsTrim f = f := jsTrim_fuels f hf'
  have htrimt : jsTrim tr = tr := jsTrim_transmissions tr htr'
  have hschema : carSchemaValid
      (addPayload (ensureLoggedInOrDemo st sess).1.nextId
        (ensureLoggedInOrDemo st sess).2.2
        (ensureLoggedInOrDemo st sess).1.nextTime b) = true := by
    simp only [carSchemaValid, addPayload, hm, hy, hmp, hf, htr, Option.getD,
      htrimf, htrimt, hcf, hct, Bool.and_eq_true, decide_eq_true_eq]
    refine ⟨⟨⟨⟨hm', by omega⟩, by omega⟩, ?_⟩, ?_⟩ <;> simp [hcf, hct]
  simp only [postAdd, hm, hy, hmp, hf, htr, Option.getD, truthyS, truthyI,
    Car.create, hschema, if_true]
  simp [hm0, hy0, hmp0, hylt, hcf, hct, hf', htr', hschema, Car.create]

/-- C2 (amended: `mpg` strictly positive and `model` non-blank after
trimming): a valid `/add` payload is accepted with a redirect, and a
subsequent `GET /data` in the same session returns a list containing a record
whose fields equal the submitted input modulo the trimming and defaulting
rules (strings trimmed, `notes` defaulting to empty, `isElectric` from the
boolean-like coercion). -/
theorem add_then_list_roundtrip (st : Store) (sess : Session) (b : CarBody)
    (m f tr : String) (y mp : Int)
    (hm : b.model = some m) (hm' : jsTrim m ≠ "")
    (hy : b.year = some y) (hy' : 1885 ≤ y)
    (hmp : b.mpg = some mp) (hmp' : 0 < mp)
    (hf : b.fuel = some f) (hf' : f ∈ allowedFuels)
    (htr : b.transmission = some tr) (htr' : tr ∈ allowedTransmissions) :
    (postAdd st sess b).resp = .redirect "/dashboard"
    ∧ ∃ l, (getData (postAdd st sess b).store (postAdd st sess b).sess).resp
        = .jsonCars l
      ∧ ∃ c ∈ l, c.model = jsTrim m ∧ c.year = y ∧ c.mpg = mp ∧ c.fuel = f
          ∧ c.transmission = tr ∧ c.notes = jsTrim (b.notes.getD "")
          ∧ c.isElectric = isElectricAdd b.isElectric := by
  have hacc := postAdd_accepted st sess b m f tr y mp hm hm' hy hy' hmp hmp'
    hf hf' htr htr'
  rw [hacc]
  refine ⟨rfl, ?_⟩
  have huser := ensure_userId st sess
  simp only [getData, ensure_some _ _ _ huser]
  refine ⟨_, rfl, ?_⟩
  refine ⟨addPayload (ensureLoggedInOrDemo st sess).1.nextId
    (ensureLoggedInOrDemo st sess).2.2
    (ensureLoggedInOrDemo st sess).1.nextTime b, ?_, ?_⟩
  · apply List.mem_filter.mpr
    constructor
    · exact List.mem_append_right _ (List.mem_singleton_self _)
    · simp [addPayload]
  · simp [addPayload, hm, hy, hmp, hf, htr, jsTrim_fuels f hf',
      jsTrim_transmissions tr htr']

/-- C2 counterexample: `mpg = 0` is a non-negative number, so the payload is
valid as the claim states it, yet `/add` rejects it with the required-fields
message because `0` is JS-falsy; no record is created. -/
theorem add_then_list_roundtrip_counterexample :
    (0 : Int) ≥ 0
    ∧ (postAdd emptyStore anonSession { bodyOK with mpg := some 0 }).resp
        = .jsonError 400 "Model, year, and MPG are required fields."
    ∧ (postAdd emptyStore anonSession { bodyOK with mpg := some 0 }).store.cars
        = [] := by
  refine ⟨by decide, by decide, by decide⟩

/-- C2 witness: the amended roundtrip at a concrete valid payload. -/
theorem add_then_list_roundtrip_witness :
    (bodyOK.model = some "Civic" ∧ jsTrim "Civic" ≠ ""
      ∧ bodyOK.year = some 2020 ∧ (1885 : Int) ≤ 2020
      ∧ bodyOK.mpg = some 35 ∧ (0 : Int) < 35
      ∧ bodyOK.fuel = some "gasoline" ∧ "gasoline" ∈ allowedFuels
      ∧ bodyOK.transmission = some "auto" ∧ "auto" ∈ allowedTransmissions)
    ∧ ((postAdd emptyStore anonSession bodyOK).resp = .redirect "/dashboard"
      ∧ ∃ l, (getData (postAdd emptyStore anonSession bodyOK).store
            (postAdd emptyStore anonSession bodyOK).sess).resp = .jsonCars l
        ∧ ∃ c ∈ l, c.model = jsTrim "Civic" ∧ c.year = 2020 ∧ c.mpg = 35
            ∧ c.fuel = "gasoline" ∧ c.transmission = "auto"
            ∧ c.notes = jsTrim (bodyOK.notes.getD "")
            ∧ c.isElectric = isElectricAdd bodyOK.isElectric) :=
  ⟨⟨rfl, by decide, rfl, by decide, rfl, by decide, rfl, by decide, rfl,
    by decide⟩,
   add_then_list_roundtrip emptyStore anonSession bodyOK "Civic" "gasoline"
     "auto" 2020 35 rfl (by decide) rfl (by decide) rfl (by decide) rfl
     (by decide) rfl (by decide)⟩

/-- C4 (amended): on `/add`, a payload passing the required-field truthiness
check with `year < 1885` is rejected 400 with exactly the message
"Year must be 1885 or later."; a payload with `year = 0` (also below 1885) is
rejected 400, but with the required-fields message, because `0` is JS-falsy;
and an otherwise-valid payload (non-blank trimmed model, positive mpg, valid
enums) with `year` exactly 1885 is accepted. -/
theorem year_boundary (st : Store) (sess : Session) (b : CarBody)
    (m : String) (y mp : Int)
    (hm : b.model = some m) (hm0 : m ≠ "")
    (hy : b.year = some y)
    (hmp : b.mpg = some mp) (hmp0 : mp ≠ 0) :
    (y ≠ 0 → y < 1885 →
      (postAdd st sess b).resp = .jsonError 400 "Year must be 1885 or later.")
    ∧ (y = 0 →
      (postAdd st sess b).resp
        = .jsonError 400 "Model, year, and MPG are required fields.")
    ∧ (y = 1885 → jsTrim m ≠ "" → 0 < mp →
      ∀ f ∈ allowedFuels, ∀ tr ∈ allowedTransmissions,
        b.fuel = some f → b.transmission = some tr →
        (postAdd st sess b).resp = .redirect "/dashboard") := by
  refine ⟨?_, ?_, ?_⟩
  · intro hy0 hylt
    simp [postAdd, hm, hy, hmp, truthyS, truthyI, hm0, hy0, hmp0, hylt]
  · intro hy0
    subst hy0
    simp [postAdd, hm, hy, hmp, truthyS, truthyI, hm0, hmp0]
  · intro hy1885 hm' hmp' f hf' tr htr' hf htr
    subst hy1885
    rw [postAdd_accepted st sess b m f tr 1885 mp hm hm' hy le_rfl hmp hmp'
      hf hf' htr htr']

/-- C4 counterexample: the payload `{model:"X", year:0, mpg:10, ...}` has
year below 1885, but the 400 error message is the required-fields one, not
"Year must be 1885 or later.", because `0` is JS-falsy and trips the
required-field check first. -/
theorem year_boundary_counterexample :
    (0 : Int) < 1885
    ∧ (postAdd emptyStore anonSession
        { bodyOK with model := some "X", year := some 0, mpg := some 10 }).resp
      = .jsonError 400 "Model, year, and MPG are required fields."
    ∧ (postAdd emptyStore anonSession
        { bodyOK with model := some "X", year := some 0, mpg := some 10 }).resp
      ≠ .jsonError 400 "Year must be 1885 or later." := by
  refine ⟨by decide, by decide, by decide⟩

/-- C4 witness: the amended theorem at year 1880 (year message), year 0
(required message) and year 1885 (accepted), on one body shape. -/
theorem year_boundary_witness :
    (({ bodyOK with year := some 1880 } : CarBody).model = some "Civic"
      ∧ ("Civic" : String) ≠ ""
      ∧ ({ bodyOK with year := some 1880 } : CarBody).year = some 1880
      ∧ ({ bodyOK with year := some 1880 } : CarBody).mpg = some 35
      ∧ (35 : Int) ≠ 0)
    ∧ ((postAdd emptyStore anonSession { bodyOK with year := some 1880 }).resp
        = .jsonError 400 "Year must be 1885 or later.")
    ∧ ((postAdd emptyStore anonSession { bodyOK with year := some 0 }).resp
        = .jsonError 400 "Model, year, and MPG are required fields.")
    ∧ ((postAdd emptyStore anonSession { bodyOK with year := some 1885 }).resp
        = .redirect "/dashboard") :=
  ⟨⟨rfl, by decide, rfl, rfl, by decide⟩,
   (year_boundary emptyStore anonSession { bodyOK with year := some 1880 }
      "Civic" 1880 35 rfl (by decide) rfl rfl (by decide)).1
     (by decide) (by decide),
   (year_boundary emptyStore anonSession { bodyOK with year := some 0 }
      "Civic" 0 35 rfl (by decide) rfl rfl (by decide)).2.1 rfl,
   (year_boundary emptyStore anonSession { bodyOK with year := some 1885 }
      "Civic" 1885 35 rfl (by decide) rfl rfl (by decide)).2.2 rfl
     (by decide) (by decide) "gasoline" (by decide) "auto" (by decide)
     rfl rfl⟩

/-- C5 (amended): on `POST /add` (create), a fuel value outside the
enumerated set is rejected 400 with the fuel message, a transmission value
outside its set is rejected 400 with the transmission message, and values
inside the sets are accepted and stored verbatim; but on the update surface
(`POST /modify`), no enum validation runs: any fuel string supplied for an
owned record is stored verbatim. -/
theorem enum_validation (st : Store) (sess : Session) (b : CarBody)
    (m f tr : String) (y mp : Int)
    (hm : b.model = some m) (hm0 : m ≠ "")
    (hy : b.year = some y) (hy' : 1885 ≤ y)
    (hmp : b.mpg = some mp) (hmp0 : mp ≠ 0) :
    (b.fuel.getD "" ∉ allowedFuels →
      (postAdd st sess b).resp
        = .jsonError 400 "Fuel must be one of: gasoline, diesel, electric, hybrid.")
    ∧ (b.fuel.getD "" ∈ allowedFuels →
       b.transmission.getD "" ∉ allowedTransmissions →
      (postAdd st sess b).resp
        = .jsonError 400 "Transmission must be one of: auto, manual.")
    ∧ (jsTrim m ≠ "" → 0 < mp → b.fuel = some f → f ∈ allowedFuels →
       b.transmission = some tr → tr ∈ allowedTransmissions →
      (postAdd st sess b).resp = .redirect "/dashboard"
      ∧ ∃ c' ∈ (postAdd st sess b).store.cars,
          c'.fuel = f ∧ c'.transmission = tr)
    ∧ (∀ uid cid (c : Car) (fx : String), sess.userId = some uid →
       c ∈ st.cars → c.id = cid → c.owner = uid → b.fuel = some fx →
      ∃ c' ∈ (postModify st sess ⟨some cid, b⟩).store.cars,
        c'.id = cid ∧ c'.fuel = fx) := by
  have hy0 : y ≠ 0 := by omega
  have hylt : ¬ y < 1885 := by omega
  refine ⟨?_, ?_, ?_, ?_⟩
  · intro hnf
    simp [postAdd, hm, hy, hmp, truthyS, truthyI, hm0, hy0, hmp0, hylt, hnf]
  · intro hyf hnt
    simp [postAdd, hm, hy, hmp, truthyS, truthyI, hm0, hy0, hmp0, hylt,
      hyf, hnt]
  · intro hm' hmp' hf hf' htr htr'
    rw [postAdd_accepted st sess b m f tr y mp hm hm' hy hy' hmp hmp'
      hf hf' htr htr']
    refine ⟨rfl, ?_⟩
    refine ⟨addPayload (ensureLoggedInOrDemo st sess).1.nextId
      (ensureLoggedInOrDemo st sess).2.2
      (ensureLoggedInOrDemo st sess).1.nextTime b, ?_, ?_, ?_⟩
    · exact List.mem_append_right _ (List.mem_singleton_self _)
    · simp [addPayload, hf, jsTrim_fuels f hf']
    · simp [addPayload, htr, jsTrim_transmissions tr htr']
  · intro uid cid c fx hsess hc hcid howner hfx
    simp only [postModify, ensure_some st sess uid hsess, hy, hmp]
    have himg : (if (c.id == cid && c.owner == uid) = true
        then applyModifySet b c else c) = applyModifySet b c := by
      simp [hcid, howner]
    refine ⟨applyModifySet b c, ?_, ?_, ?_⟩
    · simp only [Option.isNone_some, Bool.or_self, Bool.false_eq_true,
        if_false]
      rw [← himg]
      exact List.mem_map_of_mem _ hc
    · exact hcid
    · simp [applyModifySet, hfx]

/-- C5 counterexample: alice updates her own car via `POST /modify` with
fuel "plutonium", which is outside the enumerated set; the request is not
rejected, and the value is stored verbatim (Mongoose update validators are
off for `updateOne`). -/
theorem enum_validation_counterexample :
    "plutonium" ∉ allowedFuels
    ∧ (postModify stTwoUsers sessAlice
        ⟨some 11, { bodyFull with fuel := some "plutonium" }⟩).store.cars
      = [bobCar, ⟨11, 0, "Model3", 2022, 120, " nice ", "plutonium", true,
          "auto", 1⟩]
    ∧ (postModify stTwoUsers sessAlice
        ⟨some 11, { bodyFull with fuel := some "plutonium" }⟩).resp
      = .jsonCars [⟨11, 0, "Model3", 2022, 120, " nice ", "plutonium", true,
          "auto", 1⟩] := by
  refine ⟨by decide, by decide, by decide⟩

/-- C5 witness: the amended theorem's four parts discharged on concrete
bodies: bad fuel rejected, bad transmission rejected, valid enums stored
verbatim on create, and an out-of-enum fuel stored verbatim on update. -/
theorem enum_validation_witness :
    (({ bodyOK with fuel := some "water" } : CarBody).fuel.getD "" ∉ allowedFuels)
    ∧ (postAdd emptyStore anonSession { bodyOK with fuel := some "water" }).resp
        = .jsonError 400 "Fuel must be one of: gasoline, diesel, electric, hybrid."
    ∧ (postAdd emptyStore anonSession
        { bodyOK with transmission := some "cvt" }).resp
        = .jsonError 400 "Transmission must be one of: auto, manual."
    ∧ ((postAdd emptyStore anonSession bodyOK).resp = .redirect "/dashboard"
      ∧ ∃ c' ∈ (postAdd emptyStore anonSession bodyOK).store.cars,
          c'.fuel = "gasoline" ∧ c'.transmission = "auto")
    ∧ (∃ c' ∈ (postModify stTwoUsers sessAlice
          ⟨some 11, { bodyFull with fuel := some "plutonium" }⟩).store.cars,
        c'.id = 11 ∧ c'.fuel = "plutonium") :=
  ⟨by decide,
   (enum_validation emptyStore anonSession { bodyOK with fuel := some "water" }
      "Civic" "gasoline" "auto" 2020 35 rfl (by decide) rfl (by decide) rfl
      (by decide)).1 (by decide),
   (enum_validation emptyStore anonSession
      { bodyOK with transmission := some "cvt" }
      "Civic" "gasoline" "auto" 2020 35 rfl (by decide) rfl (by decide) rfl
      (by decide)).2.1 (by decide) (by decide),
   (enum_validation emptyStore anonSession bodyOK
      "Civic" "gasoline" "auto" 2020 35 rfl (by decide) rfl (by decide) rfl
      (by decide)).2.2.1 (by decide) (by decide) rfl (by decide) rfl
      (by decide),
   (enum_validation stTwoUsers sessAlice
      { bodyFull with fuel := some "plutonium" }
      "Model3" "gasoline" "auto" 2022 120 rfl (by decide) rfl (by decide) rfl
      (by decide)).2.2.2 0 11 aliceCar "plutonium" rfl (by decide) rfl rfl
      rfl⟩

/-- C6 (amended): on `POST /add`, exactly the checks the handler performs
(required-field truthiness, `year < 1885`, enum membership) produce a 400
JSON error; a payload passing those checks but failing the Mongoose schema
(e.g. a negative mpg, which the handler never range-checks) surfaces as the
500 persistence error; and a payload passing both is accepted with a
redirect. -/
theorem add_error_taxonomy (st : Store) (sess : Session) (b : CarBody) :
    (addHandlerAccepts b = false →
      ∃ msg, (postAdd st sess b).resp = .jsonError 400 msg)
    ∧ (addHandlerAccepts b = true →
       carSchemaValid (addPayload (ensureLoggedInOrDemo st sess).1.nextId
         (ensureLoggedInOrDemo st sess).2.2
         (ensureLoggedInOrDemo st sess).1.nextTime b) = false →
      (postAdd st sess b).resp = .jsonError 500 "Failed to add car.")
    ∧ (addHandlerAccepts b = true →
       carSchemaValid (addPayload (ensureLoggedInOrDemo st sess).1.nextId
         (ensureLoggedInOrDemo st sess).2.2
         (ensureLoggedInOrDemo st sess).1.nextTime b) = true →
      (postAdd st sess b).resp = .redirect "/dashboard") := by
  refine ⟨?_, ?_, ?_⟩
  · intro hacc
    by_cases h1 : (truthyS b.model && truthyI b.year && truthyI b.mpg) = true
    · by_cases h2 : b.year.getD 0 < 1885
      · exact ⟨"Year must be 1885 or later.", by simp [postAdd, h1, h2]⟩
      · by_cases h3 : b.fuel.getD "" ∈ allowedFuels
        · by_cases h4 : b.transmission.getD "" ∈ allowedTransmissions
          · exfalso
            simp [addHandlerAccepts, h1, h2, h3, h4] at hacc
          · exact ⟨"Transmission must be one of: auto, manual.",
              by simp [postAdd, h1, h2, h3, h4]⟩
        · exact ⟨"Fuel must be one of: gasoline, diesel, electric, hybrid.",
            by simp [postAdd, h1, h2, h3]⟩
    · have h1' : (truthyS b.model && truthyI b.year && truthyI b.mpg) = false := by
        simpa using h1
      exact ⟨"Model, year, and MPG are required fields.",
        by simp [postAdd, h1']⟩
  · intro hacc hsch
    have h := hacc
    simp only [addHandlerAccepts, Bool.and_eq_true] at h
    obtain ⟨⟨⟨⟨⟨h1a, h1b⟩, h1c⟩, h2⟩, h3⟩, h4⟩ := h
    simp only [Bool.not_eq_true'] at h2
    simp only [decide_eq_false_iff_not] at h2
    have h3' := List.elem_iff.mp h3
    have h4' := List.elem_iff.mp h4
    simp [postAdd, h1a, h1b, h1c, h2, h3', h4', Car.create, hsch]
  · intro hacc hsch
    have h := hacc
    simp only [addHandlerAccepts, Bool.and_eq_true] at h
    obtain ⟨⟨⟨⟨⟨h1a, h1b⟩, h1c⟩, h2⟩, h3⟩, h4⟩ := h
    simp only [Bool.not_eq_true'] at h2
    simp only [decide_eq_false_iff_not] at h2
    have h3' := List.elem_iff.mp h3
    have h4' := List.elem_iff.mp h4
    simp [postAdd, h1a, h1b, h1c, h2, h3', h4', Car.create, hsch]

/-- C6 counterexample: `mpg = -5` is out of range (`min: 0` in the schema),
so per the claim it should be a 400 client error; but the handler never
range-checks mpg, `Car.create` throws, and the response is the 500
persistence error. -/
theorem add_error_taxonomy_counterexample :
    (-5 : Int) < 0
    ∧ (postAdd emptyStore anonSession { bodyOK with mpg := some (-5) }).resp
        = .jsonError 500 "Failed to add car."
    ∧ (postAdd emptyStore anonSession
        { bodyOK with mpg := some (-5) }).store.cars = [] := by
  refine ⟨by decide, by decide, by decide⟩

/-- C6 witness: the three branches of the amended taxonomy at concrete
payloads: a missing model (400), a negative mpg (500), a fully valid body
(redirect). -/
theorem add_error_taxonomy_witness :
    (addHandlerAccepts { bodyOK with model := none } = false
      ∧ ∃ msg, (postAdd emptyStore anonSession
          { bodyOK with model := none }).resp = .jsonError 400 msg)
    ∧ (addHandlerAccepts { bodyOK with mpg := some (-5) } = true
      ∧ carSchemaValid (addPayload
          (ensureLoggedInOrDemo emptyStore anonSession).1.nextId
          (ensureLoggedInOrDemo emptyStore anonSession).2.2
          (ensureLoggedInOrDemo emptyStore anonSession).1.nextTime
          { bodyOK with mpg := some (-5) }) = false
      ∧ (postAdd emptyStore anonSession { bodyOK with mpg := some (-5) }).resp
          = .jsonError 500 "Failed to add car.")
    ∧ (addHandlerAccepts bodyOK = true
      ∧ carSchemaValid (addPayload
          (ensureLoggedInOrDemo emptyStore anonSession).1.nextId
          (ensureLoggedInOrDemo emptyStore anonSession).2.2
          (ensureLoggedInOrDemo emptyStore anonSession).1.nextTime
          bodyOK) = true
      ∧ (postAdd emptyStore anonSession bodyOK).resp = .redirect "/dashboard") :=
  ⟨⟨by decide, (add_error_taxonomy emptyStore anonSession
      { bodyOK with model := none }).1 (by decide)⟩,
   ⟨by decide, by decide, (add_error_taxonomy emptyStore anonSession
      { bodyOK with mpg := some (-5) }).2.1 (by decide) (by decide)⟩,
   ⟨by decide, by decide, (add_error_taxonomy emptyStore anonSession
      bodyOK).2.2 (by decide) (by decide)⟩⟩

/-- C7 (amended): `POST /modify` and `POST /delete` answer with the 400
"Missing id" error, an unhandled cast failure (modify with a missing
`year`/`mpg`, which `Number(...)` turns into `NaN`), or the caller's full car
list after the mutation; `POST /add` answers with a 400/500 JSON error
payload or, on success, a redirect to the dashboard — never the car list. -/
theorem json_mutation_responses (st : Store) (sess : Session) (b : ModifyBody)
    (id : Option Nat) (a : CarBody) :
    ((postModify st sess b).resp = .jsonError 400 "Missing id"
      ∨ (postModify st sess b).resp = .unhandledError
      ∨ (postModify st sess b).resp
          = .jsonCars (carsOf (postModify st sess b).store
              (ensureLoggedInOrDemo st sess).2.2))
    ∧ ((postDelete st sess id).resp = .jsonError 400 "Missing id"
      ∨ (postDelete st sess id).resp
          = .jsonCars (carsOf (postDelete st sess id).store
              (ensureLoggedInOrDemo st sess).2.2))
    ∧ ((postAdd st sess a).resp = .redirect "/dashboard"
      ∨ ∃ s msg, 400 ≤ s ∧ (postAdd st sess a).resp = .jsonError s msg) := by
  refine ⟨?_, ?_, ?_⟩
  · cases hid : b.id with
    | none => left; simp [postModify, hid]
    | some cid =>
      by_cases hnan : (b.fields.year.isNone || b.fields.mpg.isNone) = true
      · right; left; simp [postModify, hid, hnan]
      · have hnan' : (b.fields.year.isNone || b.fields.mpg.isNone) = false :=
          Bool.eq_false_iff.mpr hnan
        right; right
        simp [postModify, hid, hnan']
  · cases hid : id with
    | none => left; simp [postDelete, hid]
    | some cid => right; simp [postDelete, hid]
  · by_cases h1 : (truthyS a.model && truthyI a.year && truthyI a.mpg) = true
    · by_cases h2 : a.year.getD 0 < 1885
      · right
        exact ⟨400, "Year must be 1885 or later.", by norm_num,
          by simp [postAdd, h1, h2]⟩
      · by_cases h3 : a.fuel.getD "" ∈ allowedFuels
        · by_cases h4 : a.transmission.getD "" ∈ allowedTransmissions
          · by_cases h5 : carSchemaValid
              (addPayload (ensureLoggedInOrDemo st sess).1.nextId
                (ensureLoggedInOrDemo st sess).2.2
                (ensureLoggedInOrDemo st sess).1.nextTime a) = true
            · left
              simp [postAdd, h1, h2, h3, h4, Car.create, h5]
            · have h5' : carSchemaValid
                  (addPayload (ensureLoggedInOrDemo st sess).1.nextId
                    (ensureLoggedInOrDemo st sess).2.2
                    (ensureLoggedInOrDemo st sess).1.nextTime a) = false := by
                simpa using h5
              right
              exact ⟨500, "Failed to add car.", by norm_num,
                by simp [postAdd, h1, h2, h3, h4, Car.create, h5']⟩
          · right
            exact ⟨400, "Transmission must be one of: auto, manual.",
              by norm_num, by simp [postAdd, h1, h2, h3, h4]⟩
        · right
          exact ⟨400, "Fuel must be one of: gasoline, diesel, electric, hybrid.",
            by norm_num, by simp [postAdd, h1, h2, h3]⟩
    · have h1' : (truthyS a.model && truthyI a.year && truthyI a.mpg) = false := by
        simpa using h1
      right
      exact ⟨400, "Model, year, and MPG are required fields.", by norm_num,
        by simp [postAdd, h1']⟩

/-- C7 counterexample: a successful `POST /add` responds with a redirect to
the dashboard — neither an error payload nor the caller's car list, contrary
to the claim that every JSON-API mutation returns one of those two. -/
theorem json_mutation_responses_counterexample :
    (postAdd emptyStore anonSession bodyOK).resp = .redirect "/dashboard"
    ∧ (postAdd emptyStore anonSession bodyOK).resp
        ≠ .jsonCars (carsOf (postAdd emptyStore anonSession bodyOK).store
            (ensureLoggedInOrDemo emptyStore anonSession).2.2)
    ∧ (postAdd emptyStore anonSession bodyOK).resp
        ≠ .jsonError 400 "Missing id" := by
  refine ⟨by decide, by decide, by decide⟩

/-- C8 (amended): `GET /dashboard` renders the session user's full car list
sorted by creation time most recent first (the rendered list is a sorted
permutation of the owner's cars); but `GET /api/me` and `GET /data` return
the owner's full list in store (insertion) order, with no sort applied; the
JSON user projection of `/api/me` consists of id and username only, so the
password hash is excluded. -/
theorem listing_order_and_projection (st : Store) (sess : Session)
    (uid : Nat) (u : User)
    (hsess : sess.userId = some uid) (hu : findUserById st.users uid = some u) :
    getDashboard st sess = .renderDashboard u (sortDesc (carsOf st uid))
    ∧ List.Sorted carAfter (sortDesc (carsOf st uid))
    ∧ (sortDesc (carsOf st uid)).Perm (carsOf st uid)
    ∧ getApiMe st sess = .jsonMe (some (toPublic u)) (carsOf st uid)
    ∧ toPublic u = ⟨u.id, u.username⟩
    ∧ getData st sess = ⟨st, sess, .jsonCars (carsOf st uid)⟩ := by
  refine ⟨?_, ?_, ?_, ?_, rfl, ?_⟩
  · simp [getDashboard, hsess, hu]
  · exact List.sorted_insertionSort carAfter (carsOf st uid)
  · exact List.perm_insertionSort carAfter (carsOf st uid)
  · simp [getApiMe, hsess, hu]
  · simp [getData, ensure_some st sess uid hsess]

/-- C8 counterexample: with two cars owned by alice inserted oldest first,
`GET /data` returns them in insertion order — oldest first — not ordered by
creation time most recent first. -/
theorem listing_order_counterexample :
    (getData stTwoCars sessAlice).resp = .jsonCars [aliceCar, aliceCar2]
    ∧ aliceCar.createdAt < aliceCar2.createdAt
    ∧ sortDesc (carsOf stTwoCars 0) = [aliceCar2, aliceCar]
    ∧ (getData stTwoCars sessAlice).resp
        ≠ .jsonCars (sortDesc (carsOf stTwoCars 0))
    ∧ getApiMe stTwoCars sessAlice
        = .jsonMe (some ⟨0, "alice"⟩) [aliceCar, aliceCar2] := by
  refine ⟨by decide, by decide, by decide, by decide, by decide⟩

/-- C8 witness: the amended theorem instantiated on the two-car store. -/
theorem listing_order_and_projection_witness :
    (sessAlice.userId = some 0
      ∧ findUserById stTwoCars.users 0 = some alice)
    ∧ (getDashboard stTwoCars sessAlice
        = .renderDashboard alice (sortDesc (carsOf stTwoCars 0))
      ∧ List.Sorted carAfter (sortDesc (carsOf stTwoCars 0))
      ∧ (sortDesc (carsOf stTwoCars 0)).Perm (carsOf stTwoCars 0)
      ∧ getApiMe stTwoCars sessAlice
          = .jsonMe (some (toPublic alice)) (carsOf stTwoCars 0)
      ∧ toPublic alice = ⟨alice.id, alice.username⟩
      ∧ getData stTwoCars sessAlice
          = ⟨stTwoCars, sessAlice, .jsonCars (carsOf stTwoCars 0)⟩) :=
  ⟨⟨rfl, by decide⟩,
   listing_order_and_projection stTwoCars sessAlice 0 alice rfl (by decide)⟩

end CarTracker
